import Mathlib

/-!
Shallow embedding of the call-session coordination layer of
`src/backend/static/video-call.js` (class `VideoCallManager`), together with
proofs about the behaviors described in the specification.

Conventions of the embedding:
* JavaScript `Map` objects become association lists with JS `Map` semantics
  (`mapGet` / `mapSet` / `mapDelete`; `set` replaces in place, `delete` of an
  absent key is the identity).
* The opaque transport primitive (`RTCPeerConnection`) is modelled by a record
  that logs what the coordinator hands to it: whether local tracks were
  attached, whether a local / remote description has been applied, and the
  ordered list of remote candidates passed to `addIceCandidate`.  Each
  constructed instance gets a fresh `instanceId` drawn from a counter.
  The field `reconnectsOnFailure` records which `onconnectionstatechange`
  callback the source installed on that instance: the handler installed by
  `createPeerConnection` (video-call.js lines 517-526) calls
  `reconnectPeerConnection` when the connection state becomes `failed`,
  while the handler installed by `setupPeerConnection` (lines 620-624) only
  records the state.  The event function `onConnectionStateFailed` dispatches
  on this flag, which is the shallow embedding of the installed callback.
* Messages handed to `socket.send` while the socket is open are appended to
  `outbox`; `sendMessage` (lines 637-641) silently drops them otherwise.
  `showError` appends to `errors`; delays scheduled by `attemptReconnect`
  are appended to `scheduledDelays`; calls to `close()` on a transport append
  its `instanceId` to `closedTransports`.
* DOM / rendering side effects (video elements, buttons, overlays, logging)
  are outside the model.
-/

namespace VideoCall

/-- Lookup in an association list, JS `Map.get` semantics. -/
def mapGet {α : Type} (k : String) : List (String × α) → Option α
  | [] => none
  | (k', v) :: rest => if k' = k then some v else mapGet k rest

/-- Insert-or-replace, JS `Map.set` semantics: an existing key keeps its
position and gets the new value, a new key is appended at the end. -/
def mapSet {α : Type} (k : String) (v : α) : List (String × α) → List (String × α)
  | [] => [(k, v)]
  | (k', v') :: rest => if k' = k then (k, v) :: rest else (k', v') :: mapSet k v rest

/-- Remove a key, JS `Map.delete` semantics; removing an absent key changes
nothing. -/
def mapDelete {α : Type} (k : String) : List (String × α) → List (String × α)
  | [] => []
  | (k', v') :: rest => if k' = k then rest else (k', v') :: mapDelete k rest

/-- One entry of the `participants` registry, as built by `addParticipant`
(video-call.js lines 954-968).  `connectionQuality` is absent on a fresh
entry and only set later by `updateConnectionQuality`, hence the `Option`. -/
structure Participant where
  id : String
  name : String
  isLocal : Bool
  isMuted : Bool
  isVideoEnabled : Bool
  isScreenSharing : Bool
  connectionState : String
  connectionQuality : Option String
  deriving Repr, DecidableEq

/-- Model of one `RTCPeerConnection` instance as seen from the coordinator. -/
structure PeerConnection where
  instanceId : Nat
  tracksAdded : Bool
  localDescriptionSet : Bool
  remoteDescriptionSet : Bool
  addedCandidates : List Nat
  reconnectsOnFailure : Bool
  deriving Repr, DecidableEq

/-- A media track; only the `enabled` flag matters to the coordinator. -/
structure MediaTrack where
  enabled : Bool
  deriving Repr, DecidableEq

/-- The local media stream: the audio and video track lists. -/
structure MediaStream where
  audioTracks : List MediaTrack
  videoTracks : List MediaTrack
  deriving Repr, DecidableEq

/-- Outbound signaling messages, i.e. the JSON envelopes the manager passes to
`socket.send`.  WebRTC payloads (`data`) are opaque to the coordinator and
are represented by a `Nat` tag. -/
inductive Msg where
  | userInfo (userId userName : String)
  | getParticipants
  | ping
  | webrtcSignal (signalType : String) (dataTag : Nat) (targetUserId senderUserId : String)
  | userAction (userId action : String)
  deriving Repr, DecidableEq

/-- One element of a `participants_list` message payload. -/
structure ListedParticipant where
  user_id : String
  user_name : String
  deriving Repr, DecidableEq

/-- The mutable state of a `VideoCallManager` instance (constructor,
video-call.js lines 1-55), restricted to the call-coordination fields, plus
the observation logs described in the module docstring. -/
structure ManagerState where
  userId : String
  userName : String
  localStream : Option MediaStream
  isMuted : Bool
  isVideoEnabled : Bool
  isScreenSharing : Bool
  participants : List (String × Participant)
  peerConnections : List (String × PeerConnection)
  remoteStreams : List (String × Nat)
  socketOpen : Bool
  reconnectAttempts : Nat
  maxReconnectAttempts : Nat
  reconnectDelay : Nat
  connectionQuality : String
  heartbeatActive : Bool
  outbox : List Msg
  errors : List String
  scheduledDelays : List Nat
  closedTransports : List Nat
  nextInstanceId : Nat
  deriving Repr, DecidableEq

/-- `sendMessage` (lines 637-641): hand the message to the socket only when it
is open; otherwise the message is silently dropped. -/
def sendMessage (m : Msg) (st : ManagerState) : ManagerState :=
  if st.socketOpen then { st with outbox := st.outbox ++ [m] } else st

/-- `sendWebRTCSignal` (lines 627-635). -/
def sendWebRTCSignal (signalType : String) (dataTag : Nat) (targetUserId : String)
    (st : ManagerState) : ManagerState :=
  sendMessage (Msg.webrtcSignal signalType dataTag targetUserId st.userId) st

/-- `showError` (lines 1275-1288), reduced to recording the reported error. -/
def showError (msg : String) (st : ManagerState) : ManagerState :=
  { st with errors := st.errors ++ [msg] }

/-- The participant record `addParticipant` constructs (lines 955-963). -/
def freshParticipant (uid uname : String) (isLocal : Bool) : Participant :=
  { id := uid, name := uname, isLocal := isLocal, isMuted := false,
    isVideoEnabled := true, isScreenSharing := false,
    connectionState := "connecting", connectionQuality := none }

/-- `addParticipant` (lines 954-968): unconditionally `Map.set` a fresh
record with default media flags. -/
def addParticipant (uid uname : String) (isLocal : Bool) (st : ManagerState) : ManagerState :=
  { st with participants := mapSet uid (freshParticipant uid uname isLocal) st.participants }

/-- `removeParticipant` (lines 970-976). -/
def removeParticipant (uid : String) (st : ManagerState) : ManagerState :=
  { st with participants := mapDelete uid st.participants,
            remoteStreams := mapDelete uid st.remoteStreams }

/-- `createPeerConnection` (lines 482-549): construct a fresh transport,
attach the local tracks, install the failure-reconnecting state-change
handler, register it, create and apply a local offer, and send the offer. -/
def createPeerConnection (uid : String) (st : ManagerState) : ManagerState :=
  let pc : PeerConnection :=
    { instanceId := st.nextInstanceId,
      tracksAdded := st.localStream.isSome,
      localDescriptionSet := false,
      remoteDescriptionSet := false,
      addedCandidates := [],
      reconnectsOnFailure := true }
  let st1 := { st with peerConnections := mapSet uid pc st.peerConnections,
                       nextInstanceId := st.nextInstanceId + 1 }
  let pc1 := { pc with localDescriptionSet := true }
  let st2 := { st1 with peerConnections := mapSet uid pc1 st1.peerConnections }
  sendWebRTCSignal "offer" pc.instanceId uid st2

/-- `handleUserJoined` (lines 440-452): ignore the echo of the local id,
otherwise register the participant and start an outbound negotiation. -/
def handleUserJoined (uid uname : String) (st : ManagerState) : ManagerState :=
  if uid = st.userId then st
  else createPeerConnection uid (addParticipant uid uname false st)

/-- `closePeerConnection` (lines 1459-1470): close and deregister the
transport for `uid`, when there is one. -/
def closePeerConnection (uid : String) (st : ManagerState) : ManagerState :=
  match mapGet uid st.peerConnections with
  | none => st
  | some pc =>
    { st with closedTransports := st.closedTransports ++ [pc.instanceId],
              peerConnections := mapDelete uid st.peerConnections }

/-- `handleUserLeft` (lines 454-460). -/
def handleUserLeft (uid : String) (st : ManagerState) : ManagerState :=
  closePeerConnection uid (removeParticipant uid st)

/-- `handleOffer` (lines 551-574): reuse the registered transport for the
sender, or construct one via `setupPeerConnection` (lines 598-625) — whose
state-change handler does not reconnect on failure — then apply the remote
description, create and apply a local answer, and send the answer. -/
def handleOffer (_dataTag : Nat) (uid : String) (st : ManagerState) : ManagerState :=
  let found := mapGet uid st.peerConnections
  let pc := match found with
    | some pc => pc
    | none =>
      { instanceId := st.nextInstanceId,
        tracksAdded := st.localStream.isSome,
        localDescriptionSet := false,
        remoteDescriptionSet := false,
        addedCandidates := [],
        reconnectsOnFailure := false }
  let st0 := match found with
    | some _ => st
    | none => { st with peerConnections := mapSet uid pc st.peerConnections,
                        nextInstanceId := st.nextInstanceId + 1 }
  let pc1 := { pc with remoteDescriptionSet := true, localDescriptionSet := true }
  let st1 := { st0 with peerConnections := mapSet uid pc1 st0.peerConnections }
  sendWebRTCSignal "answer" pc1.instanceId uid st1

/-- `handleAnswer` (lines 576-585): apply the remote description on the
registered transport; with no registered transport, do nothing. -/
def handleAnswer (_dataTag : Nat) (uid : String) (st : ManagerState) : ManagerState :=
  match mapGet uid st.peerConnections with
  | none => st
  | some pc =>
    { st with peerConnections :=
        mapSet uid { pc with remoteDescriptionSet := true } st.peerConnections }

/-- `handleIceCandidate` (lines 587-596): hand the candidate to the registered
transport immediately (`addIceCandidate`), whatever its description state;
with no registered transport, do nothing.  There is no candidate queue. -/
def handleIceCandidate (candidate : Nat) (uid : String) (st : ManagerState) : ManagerState :=
  match mapGet uid st.peerConnections with
  | none => st
  | some pc =>
    { st with peerConnections :=
        mapSet uid { pc with addedCandidates := pc.addedCandidates ++ [candidate] } st.peerConnections }

/-- `handleWebRTCSignal` (lines 462-480): drop self-echo, then dispatch on the
signal type. -/
def handleWebRTCSignal (signalType : String) (dataTag : Nat) (sender : String)
    (st : ManagerState) : ManagerState :=
  if sender = st.userId then st
  else if signalType = "offer" then handleOffer dataTag sender st
  else if signalType = "answer" then handleAnswer dataTag sender st
  else if signalType = "ice_candidate" then handleIceCandidate dataTag sender st
  else st

/-- `updateParticipantConnectionStatus` (lines 1236-1242). -/
def updateParticipantConnectionStatus (uid state : String) (st : ManagerState) : ManagerState :=
  match mapGet uid st.participants with
  | none => st
  | some p =>
    { st with participants := mapSet uid { p with connectionState := state } st.participants }

/-- `reconnectPeerConnection` (lines 757-774): close and deregister the old
transport, then re-run the outbound creation path for the same remote id. -/
def reconnectPeerConnection (uid : String) (st : ManagerState) : ManagerState :=
  let st1 := match mapGet uid st.peerConnections with
    | none => st
    | some old =>
      { st with closedTransports := st.closedTransports ++ [old.instanceId],
                peerConnections := mapDelete uid st.peerConnections }
  createPeerConnection uid st1

/-- The transport for `uid` reports connection state `failed`.  The installed
`onconnectionstatechange` callback records the state on the participant and
— only if it is the callback installed by `createPeerConnection`
(lines 517-526) — calls `reconnectPeerConnection`; the callback installed by
`setupPeerConnection` (lines 620-624) stops after recording the state. -/
def onConnectionStateFailed (uid : String) (st : ManagerState) : ManagerState :=
  match mapGet uid st.peerConnections with
  | none => st
  | some pc =>
    let st1 := updateParticipantConnectionStatus uid "failed" st
    if pc.reconnectsOnFailure then reconnectPeerConnection uid st1 else st1

/-- `handleUserAction` (lines 1414-1436). -/
def handleUserAction (uid action : String) (st : ManagerState) : ManagerState :=
  match mapGet uid st.participants with
  | none => st
  | some p =>
    let p' :=
      if action = "mute" then { p with isMuted := true }
      else if action = "unmute" then { p with isMuted := false }
      else if action = "video_on" then { p with isVideoEnabled := true }
      else if action = "video_off" then { p with isVideoEnabled := false }
      else p
    { st with participants := mapSet uid p' st.participants }

/-- `handleParticipantsList` (lines 1438-1452): for every listed participant
other than the local id — with no check whether it is already known —
register it and start an outbound negotiation. -/
def handleParticipantsList (ps : List ListedParticipant) (st : ManagerState) : ManagerState :=
  ps.foldl
    (fun s p =>
      if p.user_id = s.userId then s
      else createPeerConnection p.user_id (addParticipant p.user_id p.user_name false s))
    st

/-- `toggleMute` (lines 823-839): flip the first local audio track's enabled
flag, set `isMuted` to its negation, and notify the room with one
`user_action` message. -/
def toggleMute (st : ManagerState) : ManagerState :=
  match st.localStream with
  | none => st
  | some stream =>
    match stream.audioTracks with
    | [] => st
    | t :: rest =>
      let t' : MediaTrack := { enabled := !t.enabled }
      let muted := !t'.enabled
      let st1 := { st with localStream := some { stream with audioTracks := t' :: rest },
                           isMuted := muted }
      sendMessage (Msg.userAction st1.userId (if muted then "mute" else "unmute")) st1

/-- The exponential backoff delay computed by `attemptReconnect` (line 684):
`reconnectDelay * 2 ^ (attempt - 1)`. -/
def backoffDelay (base attempt : Nat) : Nat := base * 2 ^ (attempt - 1)

/-- `attemptReconnect` (lines 682-711), up to scheduling: increment the
attempt counter and schedule a retry after the exponential backoff delay. -/
def attemptReconnect (st : ManagerState) : ManagerState :=
  let a := st.reconnectAttempts + 1
  { st with reconnectAttempts := a,
            scheduledDelays := st.scheduledDelays ++ [backoffDelay st.reconnectDelay a] }

/-- The `socket.onclose` handler (lines 385-396): stop the heartbeat and —
checking only the attempt counter, never the close code or its cause —
either start a reconnection attempt or report the terminal connection-loss
error. -/
def socketOnClose (st : ManagerState) : ManagerState :=
  let st1 := { st with heartbeatActive := false, socketOpen := false }
  if st1.reconnectAttempts < st1.maxReconnectAttempts then attemptReconnect st1
  else showError "connection_lost" st1

/-- A scheduled reconnection attempt whose connection fails.  Per the
WebSocket interface a failed connection fires `error` and then `close`: the
`error` callback rejects the promise awaited inside `attemptReconnect`
(lines 697-710), whose catch block reports the terminal error once the
attempt budget is spent; the `close` callback then runs `socketOnClose`. -/
def reconnectRetryFailed (st : ManagerState) : ManagerState :=
  let st1 := if st.maxReconnectAttempts ≤ st.reconnectAttempts
    then showError "connection_lost" st else st
  socketOnClose st1

/-- Iterated failing reconnection attempts. -/
def iterateFailures : Nat → ManagerState → ManagerState
  | 0, st => st
  | n + 1, st => iterateFailures n (reconnectRetryFailed st)

/-- `leaveCall` (lines 1136-1198), up to DOM work and the final page
navigation: stop the heartbeat, close every transport, close the socket with
normal-closure code 1000, clear the registries and reset the counters. -/
def leaveCall (st : ManagerState) : ManagerState :=
  { st with
    heartbeatActive := false,
    closedTransports := st.closedTransports ++ st.peerConnections.map (fun kv => kv.2.instanceId),
    peerConnections := [],
    socketOpen := false,
    participants := [],
    remoteStreams := [],
    reconnectAttempts := 0,
    connectionQuality := "good" }

/-- The ping period of `startHeartbeat` (lines 644-653): 30000 ms. -/
def heartbeatPeriodMs : Nat := 30000

/-- The quality classification of `checkConnectionQuality` (lines 662-680)
as a function of the elapsed time since the last received `pong`. -/
def checkConnectionQuality (elapsed : Nat) : String :=
  if 60000 < elapsed then "bad"
  else if 30000 < elapsed then "poor"
  else "good"

/-- A room membership event as consumed by the dispatcher (lines 409-438). -/
inductive RoomEvent where
  | joined (uid uname : String)
  | left (uid : String)
  deriving Repr, DecidableEq

/-- Process one membership event. -/
def applyRoomEvent (st : ManagerState) : RoomEvent → ManagerState
  | .joined uid uname => handleUserJoined uid uname st
  | .left uid => handleUserLeft uid st

/-- Process a sequence of membership events in order. -/
def applyRoomEvents (st : ManagerState) (es : List RoomEvent) : ManagerState :=
  es.foldl applyRoomEvent st

/-- Number of `joined` events. -/
def countJoined : List RoomEvent → Nat
  | [] => 0
  | .joined _ _ :: es => countJoined es + 1
  | .left _ :: es => countJoined es

/-- Number of `left` events. -/
def countLeft : List RoomEvent → Nat
  | [] => 0
  | .joined _ _ :: es => countLeft es
  | .left _ :: es => countLeft es + 1

/-- An event sequence is well formed from a state when every `joined` event
carries a remote id not currently registered and every `left` event carries a
currently registered id. -/
def wellFormedEvents (st : ManagerState) : List RoomEvent → Bool
  | [] => true
  | e :: es =>
    (match e with
     | .joined uid _ => !(uid == st.userId) && (mapGet uid st.participants).isNone
     | .left uid => (mapGet uid st.participants).isSome)
    && wellFormedEvents (applyRoomEvent st e) es

/-- A manager state as constructed by the class constructor (lines 1-21) the
moment the call is up: registries empty, socket open, counters at their
initial values, local stream with one audio and one video track. -/
def initState (uid : String) : ManagerState :=
  { userId := uid, userName := "u",
    localStream := some { audioTracks := [{ enabled := true }],
                          videoTracks := [{ enabled := true }] },
    isMuted := false, isVideoEnabled := true, isScreenSharing := false,
    participants := [], peerConnections := [], remoteStreams := [],
    socketOpen := true, reconnectAttempts := 0, maxReconnectAttempts := 5,
    reconnectDelay := 1000, connectionQuality := "good", heartbeatActive := true,
    outbox := [], errors := [], scheduledDelays := [], closedTransports := [],
    nextInstanceId := 0 }

/-- Example state: an outbound negotiation toward `bob` has been started;
its local offer is applied and sent, no remote description yet. -/
def exSt1 : ManagerState := createPeerConnection "bob" (initState "alice")

/-- Example state: `bob` joined (participant registered, outbound peer
connection created) and then reported itself muted via a `user_action`. -/
def exSt2 : ManagerState :=
  handleUserAction "bob" "mute" (handleUserJoined "bob" "Bob" (initState "alice"))

/-- `exSt2` after a `participants_list` message that lists the already-known
`bob` again. -/
def exSt2' : ManagerState := handleParticipantsList [⟨"bob", "Bob"⟩] exSt2

/-- Example state: an offer from `carol` arrived before any membership event
for her, so her transport was built by the inbound path
(`setupPeerConnection`). -/
def exSt3 : ManagerState := handleOffer 0 "carol" (initState "alice")

/-- Example state: the local participant registered itself, as
`initializeCall` does before opening the socket. -/
def exStart : ManagerState := addParticipant "alice" "Alice" true (initState "alice")

/-- An example membership-event sequence: two distinct remote joins followed
by one leave of a present id. -/
def exEvents : List RoomEvent := [.joined "bob" "Bob", .joined "carol" "Carol", .left "bob"]

/-! ### Association-list lemmas -/

theorem mapGet_mapSet_self {α : Type} (k : String) (v : α) (l : List (String × α)) :
    mapGet k (mapSet k v l) = some v := by
  induction l with
  | nil => simp [mapGet, mapSet]
  | cons hd tl ih =>
    by_cases h : hd.1 = k
    · simp [mapGet, mapSet, h]
    · simpa [mapGet, mapSet, h] using ih

theorem mapGet_mapSet_ne {α : Type} (k k' : String) (v : α) (l : List (String × α))
    (h : k' ≠ k) : mapGet k' (mapSet k v l) = mapGet k' l := by
  induction l with
  | nil =>
    have hne : ¬ k = k' := fun hh => h hh.symm
    simp [mapGet, mapSet, hne]
  | cons hd tl ih =>
    by_cases hk : hd.1 = k
    · subst hk
      have hne : ¬ hd.1 = k' := fun hh => h hh.symm
      simp [mapSet, mapGet, hne]
    · simp only [mapSet, if_neg hk, mapGet]
      by_cases hk' : hd.1 = k'
      · simp [hk']
      · simp [hk', ih]

theorem mapSet_mapSet_self {α : Type} (k : String) (v v' : α) (l : List (String × α)) :
    mapSet k v' (mapSet k v l) = mapSet k v' l := by
  induction l with
  | nil => simp [mapSet]
  | cons hd tl ih =>
    by_cases h : hd.1 = k
    · simp [mapSet, h]
    · simp [mapSet, h, ih]

theorem length_mapSet_absent {α : Type} (k : String) (v : α) (l : List (String × α))
    (h : mapGet k l = none) : (mapSet k v l).length = l.length + 1 := by
  induction l with
  | nil => simp [mapSet]
  | cons hd tl ih =>
    by_cases hk : hd.1 = k
    · simp [mapGet, hk] at h
    · simp only [mapGet, if_neg hk] at h
      simp [mapSet, hk, ih h]

theorem length_mapSet_present {α : Type} (k : String) (v : α) (l : List (String × α))
    (h : (mapGet k l).isSome) : (mapSet k v l).length = l.length := by
  induction l with
  | nil => simp [mapGet] at h
  | cons hd tl ih =>
    by_cases hk : hd.1 = k
    · simp [mapSet, hk]
    · simp only [mapGet, if_neg hk] at h
      simp [mapSet, hk, ih h]

theorem mapDelete_absent {α : Type} (k : String) (l : List (String × α))
    (h : mapGet k l = none) : mapDelete k l = l := by
  induction l with
  | nil => simp [mapDelete]
  | cons hd tl ih =>
    by_cases hk : hd.1 = k
    · simp [mapGet, hk] at h
    · simp only [mapGet, if_neg hk] at h
      simp [mapDelete, hk, ih h]

theorem length_mapDelete_present {α : Type} (k : String) (l : List (String × α))
    (h : (mapGet k l).isSome) : (mapDelete k l).length + 1 = l.length := by
  induction l with
  | nil => simp [mapGet] at h
  | cons hd tl ih =>
    by_cases hk : hd.1 = k
    · simp [mapDelete, hk]
    · simp only [mapGet, if_neg hk] at h
      simp [mapDelete, hk, ih h]

/-! ### Characterizations of the compound operations -/

/-- The transport instance `createPeerConnection` registers: fresh id, local
tracks attached, local offer applied, failure-reconnecting handler. -/
def freshOutboundPC (st : ManagerState) : PeerConnection :=
  { instanceId := st.nextInstanceId,
    tracksAdded := st.localStream.isSome,
    localDescriptionSet := true,
    remoteDescriptionSet := false,
    addedCandidates := [],
    reconnectsOnFailure := true }

theorem createPeerConnection_eq (uid : String) (st : ManagerState) :
    createPeerConnection uid st =
      { st with
        peerConnections := mapSet uid (freshOutboundPC st) st.peerConnections,
        nextInstanceId := st.nextInstanceId + 1,
        outbox := st.outbox ++
          (if st.socketOpen
           then [Msg.webrtcSignal "offer" st.nextInstanceId uid st.userId] else []) } := by
  unfold createPeerConnection sendWebRTCSignal sendMessage freshOutboundPC
  by_cases h : st.socketOpen <;> simp [h, mapSet_mapSet_self]

/-- `closePeerConnection` never touches the participant registry. -/
theorem closePeerConnection_participants (uid : String) (st : ManagerState) :
    (closePeerConnection uid st).participants = st.participants := by
  unfold closePeerConnection
  cases mapGet uid st.peerConnections <;> simp

/-- Once the attempt budget is spent, a further failing attempt reports an
error but schedules nothing and leaves the counters alone. -/
theorem reconnectRetryFailed_terminal (st : ManagerState)
    (h : st.maxReconnectAttempts ≤ st.reconnectAttempts) :
    (reconnectRetryFailed st).scheduledDelays = st.scheduledDelays ∧
    (reconnectRetryFailed st).reconnectAttempts = st.reconnectAttempts ∧
    (reconnectRetryFailed st).maxReconnectAttempts = st.maxReconnectAttempts := by
  unfold reconnectRetryFailed socketOnClose showError
  rw [if_pos h]
  simp [Nat.not_lt.mpr h]

/-- Iterating failing attempts past the budget never schedules another
delay. -/
theorem iterateFailures_terminal (k : Nat) (st : ManagerState)
    (h : st.maxReconnectAttempts ≤ st.reconnectAttempts) :
    (iterateFailures k st).scheduledDelays = st.scheduledDelays ∧
    (iterateFailures k st).reconnectAttempts = st.reconnectAttempts := by
  induction k generalizing st with
  | zero => exact ⟨rfl, rfl⟩
  | succ n ih =>
    obtain ⟨d, a, m⟩ := reconnectRetryFailed_terminal st h
    obtain ⟨d', a'⟩ := ih (reconnectRetryFailed st) (by rw [a, m]; exact h)
    exact ⟨by rw [iterateFailures, d', d], by rw [iterateFailures, a', a]⟩

/-! ### Claim theorems -/

/-- Claim C7: connection-quality classification is a pure function of the
elapsed time since the last received pong, with a ping period of 30000 ms:
elapsed time under one period classifies as good, over one period and up to
two periods as poor, and over two periods as bad.  (The source assigns the
exact one-period boundary to `good`, since its `poor` test is strict:
`timeSinceLastHeartbeat > 30000`.) -/
theorem C7_quality_classification (elapsed : Nat) :
    (elapsed < heartbeatPeriodMs → checkConnectionQuality elapsed = "good") ∧
    (heartbeatPeriodMs < elapsed ∧ elapsed ≤ 2 * heartbeatPeriodMs →
      checkConnectionQuality elapsed = "poor") ∧
    (2 * heartbeatPeriodMs < elapsed → checkConnectionQuality elapsed = "bad") := by
  unfold checkConnectionQuality heartbeatPeriodMs
  refine ⟨fun h => ?_, fun h => ?_, fun h => ?_⟩
  · rw [if_neg (by omega), if_neg (by omega)]
  · rw [if_neg (by omega), if_pos (by omega)]
  · rw [if_pos (by omega)]

/-- Witness for C7 at elapsed times 15000, 45000 and 70000 ms. -/
theorem C7_quality_classification_witness :
    (15000 < heartbeatPeriodMs ∧ checkConnectionQuality 15000 = "good") ∧
    (heartbeatPeriodMs < 45000 ∧ 45000 ≤ 2 * heartbeatPeriodMs ∧
      checkConnectionQuality 45000 = "poor") ∧
    (2 * heartbeatPeriodMs < 70000 ∧ checkConnectionQuality 70000 = "bad") :=
  ⟨⟨by decide, (C7_quality_classification 15000).1 (by decide)⟩,
   ⟨by decide, by decide, (C7_quality_classification 45000).2.1 ⟨by decide, by decide⟩⟩,
   ⟨by decide, (C7_quality_classification 70000).2.2 (by decide)⟩⟩

/-- Claim C9: registering a participant (the `addParticipant` step shared by
the `user_joined` and `participants_list` paths) for an id already present in
the registry overwrites the entry with the default media flags — `isMuted`
false, `isVideoEnabled` true, `isScreenSharing` false, `connectionState`
`connecting` — so state previously recorded by `user_action` messages for
that participant is reset. -/
theorem C9_reregistration_resets (st : ManagerState) (uid uname : String) (p : Participant)
    (_hknown : mapGet uid st.participants = some p) (hremote : uid ≠ st.userId) :
    mapGet uid (handleUserJoined uid uname st).participants
        = some (freshParticipant uid uname false) ∧
    mapGet uid (handleParticipantsList [⟨uid, uname⟩] st).participants
        = some (freshParticipant uid uname false) := by
  constructor
  · unfold handleUserJoined
    rw [if_neg hremote, createPeerConnection_eq]
    simp [addParticipant, mapGet_mapSet_self]
  · unfold handleParticipantsList
    simp only [List.foldl]
    rw [if_neg hremote, createPeerConnection_eq]
    simp [addParticipant, mapGet_mapSet_self]

/-- Witness for C9: in `exSt2`, `bob` is registered and muted; re-registering
him through a `user_joined` resets the entry to the defaults. -/
theorem C9_reregistration_resets_witness :
    mapGet "bob" exSt2.participants
        = some { id := "bob", name := "Bob", isLocal := false, isMuted := true,
                 isVideoEnabled := true, isScreenSharing := false,
                 connectionState := "connecting", connectionQuality := none } ∧
    mapGet "bob" (handleUserJoined "bob" "Bob" exSt2).participants
        = some (freshParticipant "bob" "Bob" false) :=
  ⟨by decide,
   (C9_reregistration_resets exSt2 "bob" "Bob"
      { id := "bob", name := "Bob", isLocal := false, isMuted := true,
        isVideoEnabled := true, isScreenSharing := false,
        connectionState := "connecting", connectionQuality := none }
      (by decide) (by decide)).1⟩

/-- Claim C10: an incoming `webrtc_signal` of type `answer` or
`ice_candidate` whose sender has no registered peer connection is a silent
no-op: the handler returns the state unchanged, so no peer connection is
created, nothing is sent, no error is recorded, and no registry changes. -/
theorem C10_unknown_sender_noop (st : ManagerState) (dataTag : Nat) (sender : String)
    (h : mapGet sender st.peerConnections = none) :
    handleWebRTCSignal "answer" dataTag sender st = st ∧
    handleWebRTCSignal "ice_candidate" dataTag sender st = st := by
  constructor
  · unfold handleWebRTCSignal
    by_cases hs : sender = st.userId
    · rw [if_pos hs]
    · rw [if_neg hs, if_neg (by decide), if_pos rfl]
      unfold handleAnswer
      rw [h]
  · unfold handleWebRTCSignal
    by_cases hs : sender = st.userId
    · rw [if_pos hs]
    · rw [if_neg hs, if_neg (by decide), if_neg (by decide), if_pos rfl]
      unfold handleIceCandidate
      rw [h]

/-- Witness for C10: `ghost` has no registered peer connection in the
initial state; both signal types leave the state unchanged. -/
theorem C10_unknown_sender_noop_witness :
    mapGet "ghost" (initState "alice").peerConnections = none ∧
    handleWebRTCSignal "answer" 0 "ghost" (initState "alice") = initState "alice" ∧
    handleWebRTCSignal "ice_candidate" 0 "ghost" (initState "alice") = initState "alice" :=
  ⟨rfl, (C10_unknown_sender_noop (initState "alice") 0 "ghost" rfl).1,
   (C10_unknown_sender_noop (initState "alice") 0 "ghost" rfl).2⟩

/-- Counterexample to claim C1.  The code keeps no `queuedRemoteCandidates`:
in `exSt1` an outbound negotiation toward `bob` is under way and no remote
description has been applied, yet an incoming `ice_candidate` from `bob` is
handed to the transport immediately (it appears in the transport's candidate
list while `remoteDescriptionSet` is still `false`), not buffered until
after the remote description; and an `ice_candidate` from a sender with no
peer connection at all — thus necessarily before any remote description for
that sender — leaves the state completely unchanged, i.e. the candidate is
lost. -/
theorem C1_counterexample :
    ((mapGet "bob" (handleIceCandidate 7 "bob" exSt1).peerConnections).map
        (fun pc => (pc.addedCandidates, pc.remoteDescriptionSet)) = some ([7], false)) ∧
    handleIceCandidate 7 "ghost" (initState "alice") = initState "alice" := by
  exact ⟨rfl, rfl⟩

/-- Claim C1, amended: an incoming remote `ice_candidate` for a sender with a
registered peer connection is handed to the transport immediately — appended
once, in arrival order, to that connection's candidate list, regardless of
whether a remote description has been applied — while a candidate for a
sender with no registered peer connection is silently discarded; no queue of
remote candidates exists. -/
theorem C1_amended (st : ManagerState) (c : Nat) (uid : String) :
    (∀ pc, mapGet uid st.peerConnections = some pc →
      handleIceCandidate c uid st =
        { st with peerConnections :=
            (mapSet uid { pc with addedCandidates := pc.addedCandidates ++ [c] }
              st.peerConnections) }) ∧
    (mapGet uid st.peerConnections = none → handleIceCandidate c uid st = st) := by
  constructor
  · intro pc h
    unfold handleIceCandidate
    rw [h]
  · intro h
    unfold handleIceCandidate
    rw [h]

/-- Witness for C1 (amended), at the concrete state `exSt1`. -/
theorem C1_amended_witness :
    mapGet "bob" exSt1.peerConnections = some (freshOutboundPC (initState "alice")) ∧
    handleIceCandidate 7 "bob" exSt1 =
      { exSt1 with peerConnections :=
          (mapSet "bob" { freshOutboundPC (initState "alice") with addedCandidates := [7] }
            exSt1.peerConnections) } :=
  ⟨rfl, (C1_amended exSt1 7 "bob").1 (freshOutboundPC (initState "alice")) rfl⟩

/-- Counterexample to claim C2.  In `exSt2`, `bob` is already registered
(and currently muted) with peer connection instance 0.  Processing a
`participants_list` that lists `bob` does not leave him untouched: his
registry entry is overwritten (the recorded mute is reset) and a second,
fresh peer connection instance (id 1) replaces the existing one. -/
theorem C2_counterexample :
    ((mapGet "bob" exSt2.peerConnections).map (fun pc => pc.instanceId) = some 0) ∧
    ((mapGet "bob" exSt2.participants).map (fun p => p.isMuted) = some true) ∧
    ((mapGet "bob" exSt2'.peerConnections).map (fun pc => pc.instanceId) = some 1) ∧
    ((mapGet "bob" exSt2'.participants).map (fun p => p.isMuted) = some false) ∧
    exSt2'.nextInstanceId = exSt2.nextInstanceId + 1 := by
  exact ⟨rfl, rfl, rfl, rfl, rfl⟩

/-- Claim C2, amended: for every listed participant whose id is not the local
id — whether or not it is already known — processing the `participants_list`
performs exactly the `user_joined` steps: the registry entry is overwritten
with the default flags and a fresh peer connection (consuming the instance
counter and sending a new offer) replaces any existing one, which is not
closed. -/
theorem C2_amended (st : ManagerState) (p : ListedParticipant) (pc : PeerConnection)
    (hremote : p.user_id ≠ st.userId)
    (_hknown : mapGet p.user_id st.peerConnections = some pc) :
    handleParticipantsList [p] st = handleUserJoined p.user_id p.user_name st ∧
    mapGet p.user_id (handleParticipantsList [p] st).participants
        = some (freshParticipant p.user_id p.user_name false) ∧
    ((mapGet p.user_id (handleParticipantsList [p] st).peerConnections).map
        (fun q => q.instanceId) = some st.nextInstanceId) ∧
    (handleParticipantsList [p] st).nextInstanceId = st.nextInstanceId + 1 ∧
    (handleParticipantsList [p] st).closedTransports = st.closedTransports := by
  have e1 : handleParticipantsList [p] st
      = createPeerConnection p.user_id (addParticipant p.user_id p.user_name false st) := by
    unfold handleParticipantsList
    simp only [List.foldl]
    rw [if_neg hremote]
  have e2 : handleUserJoined p.user_id p.user_name st
      = createPeerConnection p.user_id (addParticipant p.user_id p.user_name false st) := by
    unfold handleUserJoined
    rw [if_neg hremote]
  refine ⟨e1.trans e2.symm, ?_, ?_, ?_, ?_⟩ <;>
    rw [e1, createPeerConnection_eq] <;>
    simp [addParticipant, mapGet_mapSet_self, freshOutboundPC]

/-- Witness for C2 (amended) at the concrete state `exSt2`, in which `bob`
already has a peer connection. -/
theorem C2_amended_witness :
    ((mapGet "bob" (handleParticipantsList [⟨"bob", "Bob"⟩] exSt2).peerConnections).map
        (fun q => q.instanceId) = some exSt2.nextInstanceId) ∧
    (handleParticipantsList [⟨"bob", "Bob"⟩] exSt2).closedTransports = exSt2.closedTransports :=
  ⟨(C2_amended exSt2 ⟨"bob", "Bob"⟩
      { instanceId := 0, tracksAdded := true, localDescriptionSet := true,
        remoteDescriptionSet := false, addedCandidates := [], reconnectsOnFailure := true }
      (by decide) rfl).2.2.1,
   (C2_amended exSt2 ⟨"bob", "Bob"⟩
      { instanceId := 0, tracksAdded := true, localDescriptionSet := true,
        remoteDescriptionSet := false, addedCandidates := [], reconnectsOnFailure := true }
      (by decide) rfl).2.2.2.2⟩

/-- Counterexample to claim C3.  In `exSt3` the session with `carol` was
created by the inbound-offer path (`setupPeerConnection`), whose
connection-state callback does not reconnect.  When the transport reports
the permanently failed state, nothing happens: the old transport is neither
closed nor discarded, no fresh transport is created and no new offer is
sent — the state is completely unchanged. -/
theorem C3_counterexample :
    ((mapGet "carol" exSt3.peerConnections).map (fun pc => pc.reconnectsOnFailure)
        = some false) ∧
    onConnectionStateFailed "carol" exSt3 = exSt3 := by
  exact ⟨rfl, rfl⟩

/-- Claim C3, amended: when the transport of a registered session reports the
permanently failed connection state, the reaction depends on which path
created the session.  A session created by the outbound path
(`createPeerConnection`) transitions to reconnection: the old transport is
closed and discarded and a fresh outbound negotiation — a new transport
instance plus a new offer to the same remote id — is started, without any
`user_left`/`user_joined` cycle.  A session created by the inbound-offer
path (`setupPeerConnection`) only records the failed state: no transport is
closed, none is created, and no offer is sent. -/
theorem C3_amended (st : ManagerState) (uid : String) (pc : PeerConnection)
    (h : mapGet uid st.peerConnections = some pc) (hs : st.socketOpen = true) :
    (pc.reconnectsOnFailure = true →
      (onConnectionStateFailed uid st).closedTransports
          = st.closedTransports ++ [pc.instanceId] ∧
      ((mapGet uid (onConnectionStateFailed uid st).peerConnections).map
          (fun q => q.instanceId) = some st.nextInstanceId) ∧
      ((mapGet uid (onConnectionStateFailed uid st).peerConnections).map
          (fun q => q.reconnectsOnFailure) = some true) ∧
      (onConnectionStateFailed uid st).nextInstanceId = st.nextInstanceId + 1 ∧
      (onConnectionStateFailed uid st).outbox
          = st.outbox ++ [Msg.webrtcSignal "offer" st.nextInstanceId uid st.userId]) ∧
    (pc.reconnectsOnFailure = false →
      (onConnectionStateFailed uid st).peerConnections = st.peerConnections ∧
      (onConnectionStateFailed uid st).closedTransports = st.closedTransports ∧
      (onConnectionStateFailed uid st).outbox = st.outbox ∧
      (onConnectionStateFailed uid st).nextInstanceId = st.nextInstanceId) := by
  have hu : ∀ s : String,
      (updateParticipantConnectionStatus uid s st).peerConnections = st.peerConnections ∧
      (updateParticipantConnectionStatus uid s st).closedTransports = st.closedTransports ∧
      (updateParticipantConnectionStatus uid s st).outbox = st.outbox ∧
      (updateParticipantConnectionStatus uid s st).nextInstanceId = st.nextInstanceId ∧
      (updateParticipantConnectionStatus uid s st).socketOpen = st.socketOpen ∧
      (updateParticipantConnectionStatus uid s st).userId = st.userId := by
    intro s
    unfold updateParticipantConnectionStatus
    cases mapGet uid st.participants <;> simp
  constructor
  · intro hflag
    unfold onConnectionStateFailed
    rw [h]
    simp only [hflag, if_true]
    unfold reconnectPeerConnection
    rw [(hu "failed").1, h, createPeerConnection_eq]
    obtain ⟨u1, u2, u3, u4, u5, u6⟩ := hu "failed"
    simp [freshOutboundPC, mapGet_mapSet_self, u1, u2, u3, u4, u5, u6, hs]
  · intro hflag
    unfold onConnectionStateFailed
    rw [h]
    simp only [hflag, if_false]
    obtain ⟨u1, u2, u3, u4, u5, u6⟩ := hu "failed"
    exact ⟨u1, u2, u3, u4⟩

/-- Witness for C3 (amended) at the concrete state `exSt1`: `bob`'s session
was created by the outbound path, so a transport failure closes instance 0
and a fresh instance replaces it. -/
theorem C3_amended_witness :
    (onConnectionStateFailed "bob" exSt1).closedTransports
        = exSt1.closedTransports ++ [0] ∧
    ((mapGet "bob" (onConnectionStateFailed "bob" exSt1).peerConnections).map
        (fun q => q.instanceId) = some exSt1.nextInstanceId) :=
  ⟨((C3_amended exSt1 "bob" (freshOutboundPC (initState "alice")) rfl rfl).1 rfl).1,
   ((C3_amended exSt1 "bob" (freshOutboundPC (initState "alice")) rfl rfl).1 rfl).2.1⟩

/-- Counterexample to claim C4.  `leaveCall` closes the socket with
normal-closure code 1000, but the `socket.onclose` handler never inspects
the close code or any leaving flag — it checks only the attempt counter,
which `leaveCall` resets to 0.  So when the close event caused by
`leaveCall` reaches the handler, a reconnection attempt is started: the
counter moves to 1 and a 1000 ms retry is scheduled.  (In the deployed page
only the navigation away at the end of `leaveCall` prevents this.) -/
theorem C4_counterexample :
    (socketOnClose (leaveCall (initState "alice"))).reconnectAttempts = 1 ∧
    (socketOnClose (leaveCall (initState "alice"))).scheduledDelays = [1000] := by
  exact ⟨rfl, rfl⟩

/-- Claim C4, amended: the close handler does not distinguish closures caused
by `leaveCall` from unexpected ones.  Whenever the configured attempt budget
is positive, delivering the close event produced by `leaveCall`'s
`socket.close(1000)` starts reconnection attempt 1 with the base delay,
because `leaveCall` resets the attempt counter to 0 and the handler checks
nothing else. -/
theorem C4_amended (st : ManagerState) (h : 0 < st.maxReconnectAttempts) :
    (socketOnClose (leaveCall st)).reconnectAttempts = 1 ∧
    (socketOnClose (leaveCall st)).scheduledDelays
        = st.scheduledDelays ++ [st.reconnectDelay] := by
  unfold socketOnClose leaveCall attemptReconnect backoffDelay
  simp [h]

/-- Witness for C4 (amended) at the initial state. -/
theorem C4_amended_witness :
    0 < (initState "alice").maxReconnectAttempts ∧
    (socketOnClose (leaveCall (initState "alice"))).scheduledDelays
        = (initState "alice").scheduledDelays ++ [(initState "alice").reconnectDelay] :=
  ⟨by decide, (C4_amended (initState "alice") (by decide)).2⟩

/-- Counterexample to claim C5.  Starting from the constructor configuration
(counter 0, base delay 1000, budget 5) with an open call, an unexpected
closure followed by five failing reconnection attempts reports the terminal
connection-loss error twice, not exactly once: when the fifth attempt fails,
the catch block inside `attemptReconnect` (budget spent) reports it, and the
same attempt's close event reaches `socket.onclose`, whose else-branch
reports it again. -/
theorem C5_counterexample :
    (iterateFailures 5 (socketOnClose (initState "alice"))).errors
        = ["connection_lost", "connection_lost"] := by
  exact rfl

/-- Claim C5, amended: with base delay 1000 and a budget of 5 attempts, the
delays scheduled for attempts 1..5 are exactly 1000, 2000, 4000, 8000,
16000 (delay = base * 2^(attempt-1)); after the 5th failed attempt no
further reconnection attempt is ever scheduled — but the terminal
connection-loss error is reported twice (once by the reconnect catch block,
once by the close handler), not exactly once. -/
theorem C5_amended (st : ManagerState)
    (h0 : st.reconnectAttempts = 0) (h1 : st.reconnectDelay = 1000)
    (h2 : st.maxReconnectAttempts = 5) :
    (iterateFailures 5 (socketOnClose st)).scheduledDelays
        = st.scheduledDelays ++ [1000, 2000, 4000, 8000, 16000] ∧
    (iterateFailures 5 (socketOnClose st)).reconnectAttempts = 5 ∧
    (iterateFailures 5 (socketOnClose st)).errors
        = st.errors ++ ["connection_lost", "connection_lost"] ∧
    (∀ k, (iterateFailures k (iterateFailures 5 (socketOnClose st))).scheduledDelays
        = (iterateFailures 5 (socketOnClose st)).scheduledDelays) := by
  have hfin : iterateFailures 5 (socketOnClose st) =
      { st with heartbeatActive := false, socketOpen := false,
                reconnectAttempts := 5,
                scheduledDelays := st.scheduledDelays ++ [1000, 2000, 4000, 8000, 16000],
                errors := st.errors ++ ["connection_lost", "connection_lost"] } := by
    simp [iterateFailures, reconnectRetryFailed, socketOnClose, attemptReconnect,
          showError, backoffDelay, h0, h1, h2]
  refine ⟨by rw [hfin], by rw [hfin], by rw [hfin], fun k => ?_⟩
  rw [hfin]
  exact (iterateFailures_terminal k _ (by simp [h2])).1

/-- Witness for C5 (amended) at the initial state. -/
theorem C5_amended_witness :
    (iterateFailures 5 (socketOnClose (initState "alice"))).scheduledDelays
        = (initState "alice").scheduledDelays ++ [1000, 2000, 4000, 8000, 16000] ∧
    (iterateFailures 5 (socketOnClose (initState "alice"))).reconnectAttempts = 5 :=
  ⟨(C5_amended (initState "alice") rfl rfl rfl).1,
   (C5_amended (initState "alice") rfl rfl rfl).2.1⟩

/-- Claim C6: for every well-formed sequence of `user_joined` / `user_left`
events (each join carries a remote id not currently registered, each leave a
currently registered id), the participant registry size changes by the
number of joins minus the number of leaves; and processing a `user_left`
for an id that is not in the registry leaves the registry unchanged. -/
theorem C6_registry_size (st : ManagerState) (es : List RoomEvent)
    (h : wellFormedEvents st es = true) :
    ((applyRoomEvents st es).participants.length + countLeft es
        = st.participants.length + countJoined es) ∧
    (∀ uid, mapGet uid st.participants = none →
        (handleUserLeft uid st).participants = st.participants) := by
  constructor
  · induction es generalizing st with
    | nil => simp [applyRoomEvents, countJoined, countLeft]
    | cons e es ih =>
      have step : applyRoomEvents st (e :: es) = applyRoomEvents (applyRoomEvent st e) es := rfl
      cases e with
      | joined uid uname =>
        simp only [wellFormedEvents, Bool.and_eq_true, Bool.not_eq_eq_eq_not, Bool.not_true,
          beq_eq_false_iff_ne, ne_eq, Option.isNone_iff_eq_none] at h
        obtain ⟨⟨hne, habs⟩, h2⟩ := h
        have hstep : (applyRoomEvent st (.joined uid uname)).participants
            = mapSet uid (freshParticipant uid uname false) st.participants := by
          show (handleUserJoined uid uname st).participants = _
          unfold handleUserJoined
          rw [if_neg hne, createPeerConnection_eq]
          simp [addParticipant]
        have hlen : (applyRoomEvent st (.joined uid uname)).participants.length
            = st.participants.length + 1 := by
          rw [hstep]
          exact length_mapSet_absent uid (freshParticipant uid uname false)
            st.participants habs
        have hih := ih (applyRoomEvent st (.joined uid uname)) h2
        rw [step]
        simp only [countLeft, countJoined]
        omega
      | left uid =>
        simp only [wellFormedEvents, Bool.and_eq_true] at h
        obtain ⟨h1, h2⟩ := h
        have hstep : (applyRoomEvent st (.left uid)).participants
            = mapDelete uid st.participants := by
          show (handleUserLeft uid st).participants = _
          unfold handleUserLeft
          rw [closePeerConnection_participants]
          simp [removeParticipant]
        have hlen : (applyRoomEvent st (.left uid)).participants.length + 1
            = st.participants.length := by
          rw [hstep]
          exact length_mapDelete_present uid st.participants h1
        have hih := ih (applyRoomEvent st (.left uid)) h2
        rw [step]
        simp only [countLeft, countJoined]
        omega
  · intro uid habs
    unfold handleUserLeft
    rw [closePeerConnection_participants]
    simp [removeParticipant, mapDelete_absent uid st.participants habs]

/-- Witness for C6: from a state with only the local participant, two
distinct remote joins and one leave end with 1 + 2 - 1 = 2 registered
participants, and a leave of an unknown id changes nothing. -/
theorem C6_registry_size_witness :
    wellFormedEvents exStart exEvents = true ∧
    ((applyRoomEvents exStart exEvents).participants.length + countLeft exEvents
        = exStart.participants.length + countJoined exEvents) ∧
    mapGet "ghost" exStart.participants = none ∧
    (handleUserLeft "ghost" exStart).participants = exStart.participants :=
  ⟨rfl, (C6_registry_size exStart exEvents rfl).1, rfl,
   (C6_registry_size exStart exEvents rfl).2 "ghost" rfl⟩

/-- Claim C8: with a local audio track present (and the signaling channel
open, since sends are otherwise dropped), `toggleMute` sends no offer —
every `webrtc_signal` in the outbox afterwards was already there — and
emits exactly one `user_action` message whose action (`mute` / `unmute`)
matches the audio track's new enabled state; only the audio track's enabled
flag and the local mute indicator change, every other piece of state is
untouched. -/
theorem C8_toggleMute_effects (st : ManagerState) (stream : MediaStream)
    (t : MediaTrack) (rest : List MediaTrack)
    (h1 : st.localStream = some stream) (h2 : stream.audioTracks = t :: rest)
    (h3 : st.socketOpen = true) :
    (toggleMute st).outbox
        = st.outbox ++ [Msg.userAction st.userId (if t.enabled then "mute" else "unmute")] ∧
    (∀ sT dT tg sd, Msg.webrtcSignal sT dT tg sd ∈ (toggleMute st).outbox →
        Msg.webrtcSignal sT dT tg sd ∈ st.outbox) ∧
    (toggleMute st).localStream
        = some { stream with audioTracks := { enabled := !t.enabled } :: rest } ∧
    (toggleMute st).isMuted = t.enabled ∧
    (toggleMute st).participants = st.participants ∧
    (toggleMute st).peerConnections = st.peerConnections ∧
    (toggleMute st).remoteStreams = st.remoteStreams ∧
    (toggleMute st).isVideoEnabled = st.isVideoEnabled ∧
    (toggleMute st).isScreenSharing = st.isScreenSharing ∧
    (toggleMute st).errors = st.errors ∧
    (toggleMute st).scheduledDelays = st.scheduledDelays ∧
    (toggleMute st).closedTransports = st.closedTransports ∧
    (toggleMute st).reconnectAttempts = st.reconnectAttempts := by
  have key : toggleMute st =
      { st with
        localStream := some { stream with audioTracks := { enabled := !t.enabled } :: rest },
        isMuted := t.enabled,
        outbox := st.outbox
          ++ [Msg.userAction st.userId (if t.enabled then "mute" else "unmute")] } := by
    simp only [toggleMute, h1]
    simp only [h2]
    simp [sendMessage, h3, Bool.not_not]
  rw [key]
  refine ⟨rfl, ?_, rfl, rfl, rfl, rfl, rfl, rfl, rfl, rfl, rfl, rfl, rfl⟩
  intro sT dT tg sd hmem
  simp only [List.mem_append, List.mem_singleton] at hmem
  rcases hmem with hmem | hmem
  · exact hmem
  · cases hmem

/-- Witness for C8 at the initial state, whose audio track is enabled: the
toggle mutes and sends exactly one `user_action mute`. -/
theorem C8_toggleMute_effects_witness :
    (toggleMute (initState "alice")).outbox
        = (initState "alice").outbox ++ [Msg.userAction "alice" "mute"] ∧
    (toggleMute (initState "alice")).isMuted = true :=
  ⟨(C8_toggleMute_effects (initState "alice")
      { audioTracks := [{ enabled := true }], videoTracks := [{ enabled := true }] }
      { enabled := true } [] rfl rfl rfl).1,
   (C8_toggleMute_effects (initState "alice")
      { audioTracks := [{ enabled := true }], videoTracks := [{ enabled := true }] }
      { enabled := true } [] rfl rfl rfl).2.2.2.1⟩

end VideoCall
